import Mathlib

/-!
Shallow embedding of `src/browser_use/browser/browser.py`: a `Browser`
handle manager wrapping an external synchronous driver (`Drission`).
Drivers are modelled as natural-number references; the external world is an
`Env` giving the outcome of the driver constructor and of `quit`.  Blocking
calls offloaded with `asyncio.to_thread` are sequentialised: the offloaded
callable runs to completion and its exception, if any, is re-raised at the
await point, so the embedding runs it in place.  Exceptions are modelled
with `Except String`; a `try/except` block is a match on that value.
-/

namespace BrowserUse

/-- A value stored in the startup-options mapping handed to the external
driver constructor. -/
inductive OptValue where
  | ofBool (b : Bool)
  | ofArgs (args : List String)
  | ofPath (p : Option String)
  | ofProxy (p : Option (List (String × String)))
deriving DecidableEq, Repr

/-- Embedding of the `BrowserConfig` dataclass with its field defaults. -/
structure BrowserConfig where
  headless : Bool := false
  disable_security : Bool := true
  extra_chromium_args : List String := []
  chrome_instance_path : Option String := none
  proxy : Option (List (String × String)) := none
deriving DecidableEq, Repr

instance {ε α : Type} [DecidableEq ε] [DecidableEq α] : DecidableEq (Except ε α) := fun x y =>
  match x, y with
  | Except.ok a, Except.ok b =>
      if h : a = b then isTrue (congrArg Except.ok h)
      else isFalse (fun hc => h (Except.ok.inj hc))
  | Except.error a, Except.error b =>
      if h : a = b then isTrue (congrArg Except.error h)
      else isFalse (fun hc => h (Except.error.inj hc))
  | Except.ok _, Except.error _ => isFalse (fun hc => Except.noConfusion hc)
  | Except.error _, Except.ok _ => isFalse (fun hc => Except.noConfusion hc)

/-- Observable interactions with the external driver library and the
runtime: a constructor call with its options mapping and outcome, a `quit`
call on a driver with its outcome, and a `gc.collect()` pass. -/
inductive Event where
  | construct (options : List (String × OptValue)) (result : Except String Nat)
  | quitCall (driver : Nat) (result : Except String Unit)
  | gcCollect
deriving DecidableEq, Repr

/-- The external world: what `Drission(options=...)` returns (a driver
reference, or a raised exception) and what `driver.quit()` does. -/
structure Env where
  drissionNew : List (String × OptValue) → Except String Nat
  quitResult : Nat → Except String Unit

/-- Embedding of the `Browser` object state: the stored configuration and
the optional driver reference (`self.driver`). -/
structure Browser where
  config : BrowserConfig
  driver : Option Nat
deriving DecidableEq, Repr

/-- Embedding of `Browser.__init__`: stores the configuration and sets
`self.driver = None`. -/
def Browser.init (config : BrowserConfig) : Browser :=
  { config := config, driver := none }

/-- The options dictionary built inside `_create_driver` from the stored
configuration. -/
def Browser.optionsFor (b : Browser) : List (String × OptValue) :=
  [ ("headless", OptValue.ofBool b.config.headless),
    ("disable_security", OptValue.ofBool b.config.disable_security),
    ("extra_chromium_args", OptValue.ofArgs b.config.extra_chromium_args),
    ("chrome_instance_path", OptValue.ofPath b.config.chrome_instance_path),
    ("proxy", OptValue.ofProxy b.config.proxy) ]

/-- Embedding of `Browser._create_driver`: builds the options mapping,
calls the external constructor, and on success assigns `self.driver` and
returns it.  When the constructor raises, the assignment is never reached,
so the state is unchanged and the exception propagates. -/
def Browser.createDriver (env : Env) (b : Browser) :
    Except String Nat × Browser × List Event :=
  let options := b.optionsFor
  match env.drissionNew options with
  | Except.error e =>
      (Except.error e, b, [Event.construct options (Except.error e)])
  | Except.ok d =>
      (Except.ok d, { b with driver := some d },
       [Event.construct options (Except.ok d)])

/-- Embedding of `Browser.new_context`: `await asyncio.to_thread(self._create_driver)`,
sequentialised to a direct call that re-raises the same exception. -/
def Browser.new_context (env : Env) (b : Browser) :
    Except String Nat × Browser × List Event :=
  Browser.createDriver env b

/-- Embedding of `Browser.get_driver`: return the existing driver if one is
stored, otherwise create one via `new_context`. -/
def Browser.get_driver (env : Env) (b : Browser) :
    Except String Nat × Browser × List Event :=
  match b.driver with
  | none => Browser.new_context env b
  | some d => (Except.ok d, b, [])

/-- The `try` body of `Browser.close`: if a driver is stored, offload
`driver.quit` and then clear the reference.  When `quit` raises, the
clearing assignment is never reached, so the state at the raise point still
holds the driver. -/
def Browser.closeTryBody (env : Env) (b : Browser) :
    Except String Unit × Browser × List Event :=
  match b.driver with
  | none => (Except.ok (), b, [])
  | some d =>
      match env.quitResult d with
      | Except.error e =>
          (Except.error e, b, [Event.quitCall d (Except.error e)])
      | Except.ok _ =>
          (Except.ok (), { b with driver := none },
           [Event.quitCall d (Except.ok ())])

/-- Embedding of `Browser.close`: run the `try` body; `except Exception`
catches any raised error and only logs it; `finally` runs `gc.collect()`
on every path.  The first component is what propagates to the caller. -/
def Browser.close (env : Env) (b : Browser) :
    Except String Unit × Browser × List Event :=
  match Browser.closeTryBody env b with
  | (Except.error _e, b1, evs) => (Except.ok (), b1, evs ++ [Event.gcCollect])
  | (Except.ok _, b1, evs) => (Except.ok (), b1, evs ++ [Event.gcCollect])

/-- Embedding of an asyncio event loop as seen by `__del__`: only its
`is_running()` answer matters here. -/
structure EventLoop where
  running : Bool
deriving DecidableEq, Repr

/-- Embedding of `asyncio.get_running_loop()`: when a loop is running it
returns that loop, which necessarily reports `is_running() = True`;
otherwise it raises `RuntimeError`. -/
def get_running_loop (loopRunning : Bool) : Except String EventLoop :=
  if loopRunning then Except.ok { running := true }
  else Except.error "RuntimeError: no running event loop"

/-- What the finalizer did: scheduled `close()` as a fire-and-forget task
on the running loop, or ran `asyncio.run(self.close())` to completion with
the recorded close events. -/
inductive DelEvent where
  | scheduledCloseTask
  | ranCloseSync (events : List Event)
deriving DecidableEq, Repr

/-- Embedding of `Browser.__del__`: if a driver is stored, ask for the
running loop; if it is running, schedule `close()` as a background task,
otherwise run `close()` via `asyncio.run`.  Any exception in this body —
including the `RuntimeError` raised by `get_running_loop` when no loop is
running — is caught and only logged.  The first component is what
propagates to the caller of the finalizer. -/
def Browser.del (env : Env) (loopRunning : Bool) (b : Browser) :
    Except String Unit × Browser × List DelEvent :=
  let body : Except String Unit × Browser × List DelEvent :=
    if b.driver.isSome then
      match get_running_loop loopRunning with
      | Except.error e => (Except.error e, b, [])
      | Except.ok loop =>
          if loop.running then
            (Except.ok (), b, [DelEvent.scheduledCloseTask])
          else
            match Browser.close env b with
            | (_, b1, evs) => (Except.ok (), b1, [DelEvent.ranCloseSync evs])
    else (Except.ok (), b, [])
  match body with
  | (Except.error _e, b1, devs) => (Except.ok (), b1, devs)
  | (Except.ok _, b1, devs) => (Except.ok (), b1, devs)

/-- Lifecycle operations a caller can issue on one manager. -/
inductive Op where
  | obtain
  | close
deriving DecidableEq, Repr

/-- One caller-visible operation on the manager, with its events.  Raised
construction errors leave the manager in the post-state of the failed call. -/
def Browser.step (env : Env) (b : Browser) : Op → Browser × List Event
  | Op.obtain =>
      match Browser.get_driver env b with
      | (_, b1, evs) => (b1, evs)
  | Op.close =>
      match Browser.close env b with
      | (_, b1, evs) => (b1, evs)

/-- Run a sequence of operations from a starting state, accumulating the
event trace. -/
def Browser.run (env : Env) (b : Browser) : List Op → Browser × List Event
  | [] => (b, [])
  | op :: ops =>
      match Browser.step env b op with
      | (b1, evs) =>
          match Browser.run env b1 ops with
          | (b2, evs2) => (b2, evs ++ evs2)

/-- Net effect of one event on the number of live drivers owned by the
manager: a successful construction adds one, a successful quit retires one. -/
def Event.aliveDelta : Event → Int
  | Event.construct _ (Except.ok _) => 1
  | Event.construct _ (Except.error _) => 0
  | Event.quitCall _ (Except.ok _) => -1
  | Event.quitCall _ (Except.error _) => 0
  | Event.gcCollect => 0

/-- Number of live drivers created and not yet successfully quit over a
trace. -/
def aliveCount (evs : List Event) : Int :=
  (evs.map Event.aliveDelta).sum

/-- Number of drivers currently referenced by the manager state: zero or
one. -/
def Browser.driverCount (b : Browser) : Int :=
  match b.driver with
  | none => 0
  | some _ => 1

/-- Concrete environment where construction yields driver 7 and quit
succeeds. -/
def envOk : Env :=
  { drissionNew := fun _ => Except.ok 7,
    quitResult := fun _ => Except.ok () }

/-- Concrete environment where construction yields driver 7 and quit
raises. -/
def envBoom : Env :=
  { drissionNew := fun _ => Except.ok 7,
    quitResult := fun _ => Except.error "boom" }

/-- Concrete environment where the driver constructor raises. -/
def envNewFails : Env :=
  { drissionNew := fun _ => Except.error "construct failed",
    quitResult := fun _ => Except.ok () }

/-- Concrete manager state with default configuration and driver 7 stored. -/
def bAct : Browser := { config := {}, driver := some 7 }

/-- C10: a manager constructed with no explicit configuration (the Python
default argument `config = BrowserConfig()`) has headless false, security
disabled (disable_security true), empty extra startup arguments, and no
browser executable path or proxy settings. -/
theorem default_config_values :
    (Browser.init {}).config.headless = false ∧
    (Browser.init {}).config.disable_security = true ∧
    (Browser.init {}).config.extra_chromium_args = ([] : List String) ∧
    (Browser.init {}).config.chrome_instance_path = none ∧
    (Browser.init {}).config.proxy = none := by
  refine ⟨rfl, rfl, rfl, rfl, rfl⟩

/-- C4: calling `close` on a manager whose driver reference is absent is a
silent no-op: no error propagates (`Except.ok`), no `quitCall` is issued
(the only event is the `finally` gc pass), and the state is unchanged,
still `NoDriver`; hence `close` is idempotent. -/
theorem close_noDriver_noop (env : Env) (b : Browser) (h : b.driver = none) :
    Browser.close env b = (Except.ok (), b, [Event.gcCollect]) := by
  simp [Browser.close, Browser.closeTryBody, h]

theorem close_noDriver_noop_witness :
    Browser.close envOk (Browser.init {}) =
      (Except.ok (), Browser.init {}, [Event.gcCollect]) :=
  close_noDriver_noop envOk (Browser.init {}) rfl

/-- C1 counterexample: in an environment where `driver.quit` raises, closing
a manager that holds driver 7 does NOT leave the state at `NoDriver`: the
assignment `self.driver = None` sits after the `quit` call inside the `try`
block, so it is skipped when `quit` raises and the reference stays set. -/
theorem close_quit_error_driver_not_cleared :
    ¬ (Browser.close envBoom bAct).2.1.driver = none := by
  decide

/-- C1 (amended): if the driver shutdown call raises during `close`, the
error is caught — `close` completes and returns no error to the caller —
but the stored driver reference is NOT cleared: the state is unchanged and
remains `DriverActive`.  Only a successful `quit` clears the reference. -/
theorem close_swallows_quit_error (env : Env) (b : Browser) (d : Nat) (e : String)
    (hd : b.driver = some d) (hq : env.quitResult d = Except.error e) :
    (Browser.close env b).1 = Except.ok () ∧
    (Browser.close env b).2.1 = b := by
  simp [Browser.close, Browser.closeTryBody, hd, hq]

theorem close_swallows_quit_error_witness :
    (Browser.close envBoom bAct).1 = Except.ok () ∧
    (Browser.close envBoom bAct).2.1 = bAct :=
  close_swallows_quit_error envBoom bAct 7 "boom" rfl rfl

/-- C5 counterexample: with a raising `quit`, `close` on an active manager
does not transition the state to `NoDriver` (the reference is still set when
the `finally` gc pass runs), refuting the claim that on all paths the
collection pass happens after clearing state. -/
theorem close_active_claim_fails_on_quit_error :
    ¬ (Browser.close envBoom bAct).2.1.driver = none := by
  decide

/-- C5 (amended): `close` on a manager holding driver `d` invokes the
driver shutdown exactly once and runs a gc collection pass afterwards on
every path; when `quit` succeeds the state transitions to `NoDriver` (gc
runs after the clearing), but when `quit` raises the caught failure leaves
the state `DriverActive` and gc runs without the state having been cleared. -/
theorem close_active_quits_once (env : Env) (b : Browser) (d : Nat)
    (hd : b.driver = some d) :
    Browser.close env b =
      (Except.ok (),
       (match env.quitResult d with
        | Except.ok _ => { b with driver := none }
        | Except.error _ => b),
       [Event.quitCall d (env.quitResult d), Event.gcCollect]) := by
  cases hq : env.quitResult d with
  | ok u =>
      cases u
      simp [Browser.close, Browser.closeTryBody, hd, hq]
  | error e =>
      simp [Browser.close, Browser.closeTryBody, hd, hq]

theorem close_active_quits_once_witness :
    Browser.close envOk bAct =
      (Except.ok (),
       (match envOk.quitResult 7 with
        | Except.ok _ => { bAct with driver := none }
        | Except.error _ => bAct),
       [Event.quitCall 7 (envOk.quitResult 7), Event.gcCollect]) :=
  close_active_quits_once envOk bAct 7 rfl

/-- C3: once a `get_driver` call has succeeded and returned driver `d` with
post-state `b1`, calling `get_driver` again on `b1` returns the identical
reference `d`, leaves the state unchanged, and emits no events (no new
construction, no side effects).  The post-state is a fixed point, so every
subsequent call with no intervening close behaves the same. -/
theorem get_driver_reuses (env : Env) (b b1 : Browser) (d : Nat)
    (evs : List Event)
    (h : Browser.get_driver env b = (Except.ok d, b1, evs)) :
    Browser.get_driver env b1 = (Except.ok d, b1, []) := by
  have hb1 : b1.driver = some d := by
    cases hb : b.driver with
    | some e =>
        simp [Browser.get_driver, hb] at h
        obtain ⟨h1, h2, _⟩ := h
        rw [← h2, hb, h1]
    | none =>
        cases hc : env.drissionNew b.optionsFor with
        | error e =>
            simp [Browser.get_driver, Browser.new_context, Browser.createDriver,
              hb, hc] at h
        | ok e =>
            simp [Browser.get_driver, Browser.new_context, Browser.createDriver,
              hb, hc] at h
            obtain ⟨h1, h2, _⟩ := h
            rw [← h2, h1]
  simp [Browser.get_driver, hb1]

theorem get_driver_reuses_witness :
    Browser.get_driver envOk { config := {}, driver := some 7 } =
      (Except.ok 7, { config := {}, driver := some 7 }, []) :=
  get_driver_reuses envOk (Browser.init {}) { config := {}, driver := some 7 } 7
    [Event.construct (Browser.init {}).optionsFor (Except.ok 7)] rfl

/-- C6: when no driver is stored and the external driver constructor raises,
`get_driver` does not catch the error: the same exception value propagates
unchanged to the caller. -/
theorem get_driver_propagates_construct_error (env : Env) (b : Browser)
    (e : String) (hd : b.driver = none)
    (hc : env.drissionNew b.optionsFor = Except.error e) :
    (Browser.get_driver env b).1 = Except.error e := by
  simp [Browser.get_driver, Browser.new_context, Browser.createDriver, hd, hc]

theorem get_driver_propagates_construct_error_witness :
    (Browser.get_driver envNewFails (Browser.init {})).1 =
      Except.error "construct failed" :=
  get_driver_propagates_construct_error envNewFails (Browser.init {})
    "construct failed" rfl rfl

/-- C9: when no driver is stored and the external driver constructor raises
during obtain, the manager state is unchanged on error — in particular the
driver reference is still absent, so a later obtain attempts construction
again. -/
theorem construct_error_leaves_state (env : Env) (b : Browser) (e : String)
    (hd : b.driver = none)
    (hc : env.drissionNew b.optionsFor = Except.error e) :
    (Browser.get_driver env b).2.1 = b := by
  simp [Browser.get_driver, Browser.new_context, Browser.createDriver, hd, hc]

theorem construct_error_leaves_state_witness :
    (Browser.get_driver envNewFails (Browser.init {})).2.1 = Browser.init {} :=
  construct_error_leaves_state envNewFails (Browser.init {})
    "construct failed" rfl rfl

/-- C7: when obtain constructs a driver, the external constructor is called
with a startup-options mapping containing exactly the keys `headless`,
`disable_security`, `extra_chromium_args`, `chrome_instance_path` and
`proxy`, in that order, whose values are the corresponding fields of the
stored configuration; the constructed driver is stored as the manager
reference and returned. -/
theorem create_passes_exact_options (env : Env) (b : Browser) (d : Nat)
    (hd : b.driver = none)
    (hc : env.drissionNew b.optionsFor = Except.ok d) :
    Browser.get_driver env b =
      (Except.ok d, { b with driver := some d },
       [Event.construct
         [ ("headless", OptValue.ofBool b.config.headless),
           ("disable_security", OptValue.ofBool b.config.disable_security),
           ("extra_chromium_args", OptValue.ofArgs b.config.extra_chromium_args),
           ("chrome_instance_path", OptValue.ofPath b.config.chrome_instance_path),
           ("proxy", OptValue.ofProxy b.config.proxy) ]
         (Except.ok d)]) := by
  simp [Browser.get_driver, Browser.new_context, Browser.createDriver,
    Browser.optionsFor, hd]
  simp [Browser.optionsFor] at hc
  simp [hc]

theorem create_passes_exact_options_witness :
    Browser.get_driver envOk (Browser.init {}) =
      (Except.ok 7, { Browser.init {} with driver := some 7 },
       [Event.construct
         [ ("headless", OptValue.ofBool (Browser.init {}).config.headless),
           ("disable_security",
             OptValue.ofBool (Browser.init {}).config.disable_security),
           ("extra_chromium_args",
             OptValue.ofArgs (Browser.init {}).config.extra_chromium_args),
           ("chrome_instance_path",
             OptValue.ofPath (Browser.init {}).config.chrome_instance_path),
           ("proxy", OptValue.ofProxy (Browser.init {}).config.proxy) ]
         (Except.ok 7)]) :=
  create_passes_exact_options envOk (Browser.init {}) 7 rfl rfl

/-- C2 (divergence witness): finalizing a manager that still holds a driver
while NO event loop is running does not run `close` synchronously:
`asyncio.get_running_loop()` raises `RuntimeError` before the
`loop.is_running()` test, the `except` clause swallows it, and the
`asyncio.run(self.close())` branch is unreachable.  Concretely, in an
environment where `quit` would succeed, the finalizer returns without
error, performs no close action at all, and leaves the driver reference
set. -/
theorem del_no_running_loop_skips_close :
    Browser.del envOk false bAct = (Except.ok (), bAct, []) := by
  decide

theorem aliveCount_append (l1 l2 : List Event) :
    aliveCount (l1 ++ l2) = aliveCount l1 + aliveCount l2 := by
  simp [aliveCount, List.map_append, List.sum_append]

theorem step_alive (env : Env) (b : Browser) (op : Op) :
    aliveCount (Browser.step env b op).2 =
      Browser.driverCount (Browser.step env b op).1 - Browser.driverCount b := by
  cases op with
  | obtain =>
      cases hb : b.driver with
      | some d =>
          simp [Browser.step, Browser.get_driver, hb, aliveCount,
            Browser.driverCount]
      | none =>
          cases hc : env.drissionNew b.optionsFor with
          | error e =>
              simp [Browser.step, Browser.get_driver, Browser.new_context,
                Browser.createDriver, hb, hc, aliveCount, Event.aliveDelta,
                Browser.driverCount]
          | ok d =>
              simp [Browser.step, Browser.get_driver, Browser.new_context,
                Browser.createDriver, hb, hc, aliveCount, Event.aliveDelta,
                Browser.driverCount]
  | close =>
      cases hb : b.driver with
      | none =>
          simp [Browser.step, Browser.close, Browser.closeTryBody, hb,
            aliveCount, Event.aliveDelta, Browser.driverCount]
      | some d =>
          cases hq : env.quitResult d with
          | ok u =>
              simp [Browser.step, Browser.close, Browser.closeTryBody, hb, hq,
                aliveCount, Event.aliveDelta, Browser.driverCount]
          | error e =>
              simp [Browser.step, Browser.close, Browser.closeTryBody, hb, hq,
                aliveCount, Event.aliveDelta, Browser.driverCount]

theorem run_alive (env : Env) (ops : List Op) : ∀ b : Browser,
    aliveCount (Browser.run env b ops).2 =
      Browser.driverCount (Browser.run env b ops).1 - Browser.driverCount b := by
  induction ops with
  | nil =>
      intro b
      simp [Browser.run, aliveCount]
  | cons op ops ih =>
      intro b
      have hstep := step_alive env b op
      have hrest := ih (Browser.step env b op).1
      simp only [Browser.run]
      cases h1 : Browser.step env b op with
      | mk b1 evs =>
          cases h2 : Browser.run env b1 ops with
          | mk b2 evs2 =>
              simp only [aliveCount_append]
              rw [h1] at hstep hrest
              rw [h2] at hrest
              simp at hstep hrest ⊢
              omega

theorem driverCount_le_one (b : Browser) : Browser.driverCount b ≤ 1 := by
  cases h : b.driver with
  | none => simp [Browser.driverCount, h]
  | some d => simp [Browser.driverCount, h]

/-- C8: over every sequence of obtain and close operations from a freshly
constructed manager, the manager owns at most one driver at a time: the
number of drivers constructed and not yet successfully quit always equals
0 or 1 and matches whether the reference is set.  The lifecycle holds: the
reference starts absent at construction; obtain populates it exactly when
construction succeeds (and keeps an existing reference); close clears it
exactly when the shutdown succeeds; after a successful close the reference
is absent again, so a later obtain may repopulate it. -/
theorem driver_reference_invariant (env : Env) (c : BrowserConfig)
    (ops : List Op) :
    (Browser.init c).driver = none ∧
    aliveCount (Browser.run env (Browser.init c) ops).2 =
      Browser.driverCount (Browser.run env (Browser.init c) ops).1 ∧
    Browser.driverCount (Browser.run env (Browser.init c) ops).1 ≤ 1 ∧
    (0 : Int) ≤ Browser.driverCount (Browser.run env (Browser.init c) ops).1 ∧
    (∀ b : Browser, (Browser.get_driver env b).2.1.driver =
        (match b.driver with
         | some d => some d
         | none =>
             match env.drissionNew b.optionsFor with
             | Except.ok d => some d
             | Except.error _ => none)) ∧
    (∀ b : Browser, (Browser.close env b).2.1.driver =
        (match b.driver with
         | none => none
         | some d =>
             match env.quitResult d with
             | Except.ok _ => none
             | Except.error _ => some d)) := by
  refine ⟨rfl, ?_, ?_, ?_, ?_, ?_⟩
  · have h := run_alive env ops (Browser.init c)
    simpa [Browser.init, Browser.driverCount] using h
  · exact driverCount_le_one (Browser.run env (Browser.init c) ops).1
  · cases h : (Browser.run env (Browser.init c) ops).1.driver with
    | none => simp [Browser.driverCount, h]
    | some d => simp [Browser.driverCount, h]
  · intro b
    cases hb : b.driver with
    | some d => simp [Browser.get_driver, hb]
    | none =>
        cases hc : env.drissionNew b.optionsFor with
        | error e =>
            simp [Browser.get_driver, Browser.new_context,
              Browser.createDriver, hb, hc]
        | ok d =>
            simp [Browser.get_driver, Browser.new_context,
              Browser.createDriver, hb, hc]
  · intro b
    cases hb : b.driver with
    | none => simp [Browser.close, Browser.closeTryBody, hb]
    | some d =>
        cases hq : env.quitResult d with
        | ok u => simp [Browser.close, Browser.closeTryBody, hb, hq]
        | error e => simp [Browser.close, Browser.closeTryBody, hb, hq]

end BrowserUse
